import Mathlib

/-!
Verification development for the RouteSync supply-chain canister
(`src/lib.rs`).  The canister's four `static mut Option<HashMap<..>>`
globals are embedded as a `CanisterState` record of `Option` association
lists; each externally triggered operation receives the nanosecond clock
reading `now : Nat` (the value of `ic_cdk::api::time()`, which is constant
within a single message execution) as an explicit argument.  Floating
point payloads (`coordinates`, `temperature`, `humidity`) are inert in the
source — stored and returned, never computed on — and are embedded as
integer data.
-/

namespace RouteSync

/-- Association-list model of `HashMap<String, α>`.  `HashMap::insert`
overwrites an existing binding. -/
def mapInsert {α : Type} (m : List (String × α)) (k : String) (v : α) :
    List (String × α) :=
  match m with
  | [] => [(k, v)]
  | (k', v') :: rest =>
      if k' = k then (k, v) :: rest else (k', v') :: mapInsert rest k v

/-- `HashMap::get`. -/
def mapGet {α : Type} (m : List (String × α)) (k : String) : Option α :=
  match m with
  | [] => none
  | (k', v) :: rest => if k' = k then some v else mapGet rest k

/-- `HashMap::contains_key`. -/
def mapContains {α : Type} (m : List (String × α)) (k : String) : Bool :=
  (mapGet m k).isSome

/-- In-place update of the value at key `k` (the effect of
`HashMap::get_mut` followed by mutation); a missing key leaves the map
unchanged. -/
def mapModify {α : Type} (m : List (String × α)) (k : String) (f : α → α) :
    List (String × α) :=
  match m with
  | [] => []
  | (k', v) :: rest =>
      if k' = k then (k', f v) :: rest else (k', v) :: mapModify rest k f

/-- Entity `Product` (src/lib.rs lines 17-27). -/
structure Product where
  id : String
  name : String
  description : String
  manufacturer : String
  batch_number : String
  production_date : Nat
  ingredients : List String
  certifications : List String
deriving DecidableEq, Repr

/-- Entity `EventType` (src/lib.rs lines 43-52). -/
inductive EventType where
  | Production
  | QualityCheck
  | Packaging
  | Shipping
  | Customs
  | Delivery
  | Retail
deriving DecidableEq, Repr

/-- Entity `SupplyChainEvent` (src/lib.rs lines 29-41).  The `f64` payload
fields are inert; they are embedded as integers. -/
structure SupplyChainEvent where
  id : String
  product_id : String
  event_type : EventType
  location : String
  timestamp : Nat
  actor : String
  details : String
  coordinates : Option (Int × Int)
  temperature : Option Int
  humidity : Option Int
deriving DecidableEq, Repr

/-- Entity `SupplyChainTrace` (src/lib.rs lines 54-60). -/
structure SupplyChainTrace where
  product_id : String
  events : List SupplyChainEvent
  created_at : Nat
  last_updated : Nat
deriving DecidableEq, Repr

/-- Entity `ParticipantRole` (src/lib.rs lines 78-86). -/
inductive ParticipantRole where
  | Manufacturer
  | Supplier
  | Distributor
  | Retailer
  | Consumer
  | Auditor
deriving DecidableEq, Repr

/-- Entity `Participant` (src/lib.rs lines 68-76). -/
structure Participant where
  id : String
  name : String
  role : ParticipantRole
  location : String
  public_key : String
  is_verified : Bool
deriving DecidableEq, Repr

/-- The four `static mut Option<HashMap<..>>` globals
(src/lib.rs lines 63-66). -/
structure CanisterState where
  products : Option (List (String × Product))
  traces : Option (List (String × SupplyChainTrace))
  events : Option (List (String × SupplyChainEvent))
  participants : Option (List (String × Participant))
deriving DecidableEq, Repr

/-- The state before `init` runs: all four globals are `None`. -/
def noneState : CanisterState :=
  { products := none, traces := none, events := none, participants := none }

/-- `init` (src/lib.rs lines 94-105): sets all four globals to empty maps. -/
def initState : CanisterState :=
  { products := some [], traces := some [], events := some [],
    participants := some [] }

/-- `get_current_timestamp` (src/lib.rs lines 89-91):
`ic_cdk::api::time() / 1_000_000`, where `now` is the nanosecond clock
reading.  The source comment claims this converts nanoseconds to seconds. -/
def getCurrentTimestamp (now : Nat) : Nat :=
  now / 1000000

/-- `generate_id` (src/lib.rs lines 10-14):
`format!("{}_{}", get_current_timestamp(), ic_cdk::api::time() % 10000)`. -/
def generateId (now : Nat) : String :=
  Nat.repr (getCurrentTimestamp now) ++ "_" ++ Nat.repr (now % 10000)

/-- Caller-supplied arguments of `create_product` (src/lib.rs lines 109-116). -/
structure CreateProductArgs where
  name : String
  description : String
  manufacturer : String
  batch_number : String
  ingredients : List String
  certifications : List String
deriving DecidableEq, Repr

/-- `create_product` (src/lib.rs lines 108-157): generates an id, inserts
the product (when the products map is initialized), then inserts an empty
trace with `created_at = last_updated = now` (when the traces map is
initialized), and returns the id. -/
def createProduct (now : Nat) (a : CreateProductArgs) (st : CanisterState) :
    String × CanisterState :=
  let product_id := generateId now
  let product : Product :=
    { id := product_id, name := a.name, description := a.description,
      manufacturer := a.manufacturer, batch_number := a.batch_number,
      production_date := getCurrentTimestamp now,
      ingredients := a.ingredients, certifications := a.certifications }
  let st1 :=
    match st.products with
    | some products =>
        { st with products := some (mapInsert products product_id product) }
    | none => st
  let trace : SupplyChainTrace :=
    { product_id := product_id, events := [],
      created_at := getCurrentTimestamp now,
      last_updated := getCurrentTimestamp now }
  let st2 :=
    match st1.traces with
    | some traces =>
        { st1 with traces := some (mapInsert traces product_id trace) }
    | none => st1
  (product_id, st2)

/-- Caller-supplied arguments of `add_supply_chain_event`
(src/lib.rs lines 160-168). -/
structure AddEventArgs where
  product_id : String
  event_type : EventType
  location : String
  actor : String
  details : String
  coordinates : Option (Int × Int)
  temperature : Option Int
  humidity : Option Int
deriving DecidableEq, Repr

/-- The event record that `add_supply_chain_event` constructs
(src/lib.rs lines 170-182). -/
def mkEvent (now : Nat) (a : AddEventArgs) : SupplyChainEvent :=
  { id := generateId now, product_id := a.product_id,
    event_type := a.event_type, location := a.location,
    timestamp := getCurrentTimestamp now, actor := a.actor,
    details := a.details, coordinates := a.coordinates,
    temperature := a.temperature, humidity := a.humidity }

/-- `add_supply_chain_event` (src/lib.rs lines 159-214): generates an id
and builds the event; if the products map is initialized and does not
contain `product_id`, returns the sentinel `"Product not found"` with no
mutation.  Otherwise inserts the event into the flat events map (when
initialized), appends it to the product's trace setting
`last_updated = now` when that trace exists (a missing trace is only
logged), and returns the event id. -/
def addSupplyChainEvent (now : Nat) (a : AddEventArgs) (st : CanisterState) :
    String × CanisterState :=
  let event_id := generateId now
  let event := mkEvent now a
  let productMissing :=
    match st.products with
    | some products => !(mapContains products a.product_id)
    | none => false
  if productMissing then ("Product not found", st)
  else
    let st1 :=
      match st.events with
      | some events =>
          { st with events := some (mapInsert events event_id event) }
      | none => st
    let st2 :=
      match st1.traces with
      | some traces =>
          { st1 with traces := some (mapModify traces a.product_id
              (fun tr =>
                { tr with events := tr.events ++ [event],
                          last_updated := getCurrentTimestamp now })) }
      | none => st1
    (event_id, st2)

/-- Caller-supplied arguments of `register_participant`
(src/lib.rs lines 217-222). -/
structure RegisterArgs where
  name : String
  role : ParticipantRole
  location : String
  public_key : String
deriving DecidableEq, Repr

/-- `register_participant` (src/lib.rs lines 216-239): generates an id,
inserts the participant with `is_verified = false` (when the participants
map is initialized), and returns the id. -/
def registerParticipant (now : Nat) (a : RegisterArgs) (st : CanisterState) :
    String × CanisterState :=
  let participant_id := generateId now
  let participant : Participant :=
    { id := participant_id, name := a.name, role := a.role,
      location := a.location, public_key := a.public_key,
      is_verified := false }
  let st1 :=
    match st.participants with
    | some participants =>
        { st with
          participants :=
            some (mapInsert participants participant_id participant) }
    | none => st
  (participant_id, st1)

/-- `get_product` (src/lib.rs lines 248-259). -/
def getProduct (product_id : String) (st : CanisterState) :
    Except String Product :=
  match st.products with
  | some products =>
      match mapGet products product_id with
      | some p => Except.ok p
      | none => Except.error "Product not found"
  | none => Except.error "Products not initialized"

/-- `get_supply_chain_trace` (src/lib.rs lines 261-270). -/
def getSupplyChainTrace (product_id : String) (st : CanisterState) :
    Option SupplyChainTrace :=
  match st.traces with
  | some traces => mapGet traces product_id
  | none => none

/-- `get_all_products` (src/lib.rs lines 272-281): enumeration of the map
values; an uninitialized map yields the empty vector. -/
def getAllProducts (st : CanisterState) : List Product :=
  match st.products with
  | some products => products.map Prod.snd
  | none => []

/-- `get_participants` (src/lib.rs lines 283-292). -/
def getParticipants (st : CanisterState) : List Participant :=
  match st.participants with
  | some participants => participants.map Prod.snd
  | none => []

/-- The chronological-order loop of `verify_product_authenticity`
(src/lib.rs lines 314-320): `prev` starts at the first event's timestamp;
any strictly smaller successor yields `false`. -/
def chronologicalFrom (prev : Nat) : List SupplyChainEvent → Bool
  | [] => true
  | e :: rest =>
      if e.timestamp < prev then false else chronologicalFrom e.timestamp rest

/-- `verify_product_authenticity` (src/lib.rs lines 294-330). -/
def verifyProductAuthenticity (product_id : String) (st : CanisterState) :
    Except String Bool :=
  match st.products with
  | none => Except.error "Products not initialized"
  | some products =>
      if !(mapContains products product_id) then
        Except.error "Product not found"
      else
        match st.traces with
        | none => Except.error "Traces not initialized"
        | some traces =>
            match mapGet traces product_id with
            | none => Except.ok false
            | some trace =>
                match trace.events with
                | [] => Except.ok false
                | e :: rest => Except.ok (chronologicalFrom e.timestamp rest)

/-! ### Lemmas about the association-list map operations -/

theorem mapGet_insert {α : Type} (m : List (String × α)) (k k' : String)
    (v : α) :
    mapGet (mapInsert m k v) k' = if k = k' then some v else mapGet m k' := by
  induction m with
  | nil => simp [mapInsert, mapGet]
  | cons p rest ih =>
      obtain ⟨a, b⟩ := p
      by_cases hak : a = k
      · subst hak
        by_cases hk' : a = k'
        · subst hk'
          simp [mapInsert, mapGet]
        · simp [mapInsert, mapGet, hk']
      · by_cases hk' : a = k'
        · subst hk'
          have hka : ¬ k = a := fun h => hak h.symm
          simp [mapInsert, mapGet, hak, hka]
        · simp [mapInsert, mapGet, hak, hk', ih]

theorem mapGet_modify {α : Type} (m : List (String × α)) (k k' : String)
    (f : α → α) :
    mapGet (mapModify m k f) k' =
      if k = k' then Option.map f (mapGet m k') else mapGet m k' := by
  induction m with
  | nil => simp [mapModify, mapGet]
  | cons p rest ih =>
      obtain ⟨a, b⟩ := p
      by_cases hak : a = k
      · subst hak
        by_cases hk' : a = k'
        · subst hk'
          simp [mapModify, mapGet]
        · simp [mapModify, mapGet, hk']
      · by_cases hk' : a = k'
        · subst hk'
          have hka : ¬ k = a := fun h => hak h.symm
          simp [mapModify, mapGet, hak, hka]
        · simp [mapModify, mapGet, hak, hk', ih]

theorem mapModify_get_none {α : Type} (m : List (String × α)) (k : String)
    (f : α → α) (h : mapGet m k = none) : mapModify m k f = m := by
  induction m with
  | nil => rfl
  | cons p rest ih =>
      obtain ⟨a, b⟩ := p
      by_cases hak : a = k
      · subst hak
        simp [mapGet] at h
      · simp [mapGet, hak] at h
        simp [mapModify, hak, ih h]

theorem mapContains_insert {α : Type} (m : List (String × α)) (k k' : String)
    (v : α) :
    mapContains (mapInsert m k v) k' =
      if k = k' then true else mapContains m k' := by
  simp only [mapContains, mapGet_insert]
  by_cases h : k = k' <;> simp [h]

theorem mapContains_modify {α : Type} (m : List (String × α)) (k k' : String)
    (f : α → α) : mapContains (mapModify m k f) k' = mapContains m k' := by
  simp only [mapContains, mapGet_modify]
  by_cases h : k = k' <;> simp [h]

/-! ### The chronological scan versus adjacent-pair monotonicity -/

theorem chronologicalFrom_eq_chain (prev : Nat) (l : List SupplyChainEvent) :
    chronologicalFrom prev l = true ↔
      List.Chain' (fun a b => a ≤ b)
        (prev :: l.map SupplyChainEvent.timestamp) := by
  induction l generalizing prev with
  | nil => simp [chronologicalFrom]
  | cons e rest ih =>
      by_cases h : e.timestamp < prev
      · simp only [chronologicalFrom, if_pos h, List.map_cons,
          List.chain'_cons]
        constructor
        · intro hfalse
          exact absurd hfalse (by simp)
        · intro hc
          omega
      · simp only [chronologicalFrom, if_neg h, List.map_cons,
          List.chain'_cons]
        rw [ih]
        have hle : prev ≤ e.timestamp := Nat.le_of_not_lt h
        simp [hle]

/-! ### Sample entities used by concrete witnesses -/

/-- A concrete product record used by witness instantiations. -/
def wProduct : Product :=
  { id := "p1", name := "Milk Batch A", description := "d",
    manufacturer := "m", batch_number := "b", production_date := 0,
    ingredients := [], certifications := [] }

/-- A concrete event-append argument record used by witness
instantiations. -/
def wArgs : AddEventArgs :=
  { product_id := "p1", event_type := EventType.Production, location := "l",
    actor := "a", details := "d", coordinates := none, temperature := none,
    humidity := none }

/-- Concrete creation arguments used by witness instantiations. -/
def wCreateArgs : CreateProductArgs :=
  { name := "Milk Batch A", description := "d", manufacturer := "m",
    batch_number := "b", ingredients := [], certifications := [] }

/-- Concrete registration arguments used by witness instantiations. -/
def wRegisterArgs : RegisterArgs :=
  { name := "Farm Co", role := ParticipantRole.Manufacturer, location := "l",
    public_key := "k" }

/-- A concrete state holding product `"p1"` with an empty traces map:
the product exists but its trace is missing. -/
def wNoTraceState : CanisterState :=
  { products := some [("p1", wProduct)], traces := some [],
    events := some [], participants := some [] }

/-! ### Claim C4 -/

/-- C4: the spec states every server-assigned time field is seconds since
the Unix epoch, with `get_current_timestamp` equal to the nanosecond clock
reading divided by 1,000,000,000.  The code divides by 1,000,000 (yielding
milliseconds) while its own comment says "Convert nanoseconds to seconds":
at clock reading 2,000,000,000 ns the code returns 2000, not the 2 seconds
the claim requires. -/
theorem C4_get_current_timestamp_not_seconds :
    getCurrentTimestamp 2000000000 = 2000 ∧
    2000000000 / 1000000000 = 2 ∧
    getCurrentTimestamp 2000000000 ≠ 2000000000 / 1000000000 := by
  decide

/-! ### Claim C2 -/

/-- C2: `add_supply_chain_event` on a product id absent from an
initialized product store returns the sentinel `"Product not found"` and
returns the state unchanged — no event entry, no trace mutation, products
and participants untouched. -/
theorem C2_unknown_product_atomic_reject (now : Nat) (a : AddEventArgs)
    (st : CanisterState) (pm : List (String × Product))
    (hp : st.products = some pm)
    (hmiss : mapContains pm a.product_id = false) :
    addSupplyChainEvent now a st = ("Product not found", st) := by
  simp [addSupplyChainEvent, hp, hmiss]

/-- Witness for C2 at the freshly initialized state and a concrete
argument record. -/
theorem C2_witness :
    initState.products = some [] ∧
    mapContains ([] : List (String × Product)) wArgs.product_id = false ∧
    addSupplyChainEvent 3 wArgs initState = ("Product not found", initState) :=
  ⟨rfl, rfl, C2_unknown_product_atomic_reject 3 wArgs initState [] rfl rfl⟩

/-! ### Claim C3 -/

/-- C3 counterexample: in the concrete state `wNoTraceState` the product
`"p1"` exists but has no trace; `add_supply_chain_event` nevertheless
returns the generated event id (no `TraceNotFound` — the sentinel
`"Product not found"` is the only failure value the return type carries)
and the flat events map is mutated: the event is recorded. -/
theorem C3_counterexample_missing_trace_event_recorded :
    (addSupplyChainEvent 0 wArgs wNoTraceState).1 = generateId 0 ∧
    (addSupplyChainEvent 0 wArgs wNoTraceState).1 ≠ "Product not found" ∧
    (addSupplyChainEvent 0 wArgs wNoTraceState).2.events =
      some [(generateId 0, mkEvent 0 wArgs)] ∧
    (addSupplyChainEvent 0 wArgs wNoTraceState).2.events ≠
      wNoTraceState.events := by
  decide

/-- C3 amended: when the product exists but its trace is missing,
`add_supply_chain_event` still returns the generated event id as if
successful (the missing trace is only logged, not surfaced), records the
event in the flat events map, and leaves the traces map unchanged. -/
theorem C3_amended_missing_trace (now : Nat) (a : AddEventArgs)
    (st : CanisterState) (pm : List (String × Product))
    (em : List (String × SupplyChainEvent))
    (tm : List (String × SupplyChainTrace))
    (hp : st.products = some pm) (hc : mapContains pm a.product_id = true)
    (he : st.events = some em) (ht : st.traces = some tm)
    (hmiss : mapGet tm a.product_id = none) :
    addSupplyChainEvent now a st =
      (generateId now,
       { st with events := some (mapInsert em (generateId now)
           (mkEvent now a)) }) := by
  obtain ⟨prods, trs, evs, parts⟩ := st
  simp only at hp he ht
  subst hp he ht
  simp [addSupplyChainEvent, hc, mapModify_get_none _ _ _ hmiss]

/-- Witness for the amended C3 at the concrete no-trace state. -/
theorem C3_amended_witness :
    mapContains [("p1", wProduct)] wArgs.product_id = true ∧
    mapGet ([] : List (String × SupplyChainTrace)) wArgs.product_id = none ∧
    addSupplyChainEvent 0 wArgs wNoTraceState =
      (generateId 0,
       { wNoTraceState with events := some (mapInsert [] (generateId 0)
           (mkEvent 0 wArgs)) }) :=
  ⟨by decide, rfl,
   C3_amended_missing_trace 0 wArgs wNoTraceState [("p1", wProduct)] [] []
     rfl (by decide) rfl rfl rfl⟩

/-! ### Claim C6 -/

/-- C6: immediately after `create_product` on a state whose traces map is
initialized, `get_supply_chain_trace` on the returned id yields a trace
with no events and with `created_at` equal to `last_updated`. -/
theorem C6_fresh_trace (now : Nat) (a : CreateProductArgs)
    (st : CanisterState) (tm : List (String × SupplyChainTrace))
    (ht : st.traces = some tm) :
    ∃ tr, getSupplyChainTrace (createProduct now a st).1
        (createProduct now a st).2 = some tr ∧
      tr.events = [] ∧ tr.created_at = tr.last_updated := by
  refine ⟨{ product_id := generateId now, events := [],
            created_at := getCurrentTimestamp now,
            last_updated := getCurrentTimestamp now }, ?_, rfl, rfl⟩
  cases hp : st.products with
  | none => simp [createProduct, getSupplyChainTrace, hp, ht, mapGet_insert]
  | some pm => simp [createProduct, getSupplyChainTrace, hp, ht, mapGet_insert]

/-- Witness for C6 at the freshly initialized state. -/
theorem C6_witness :
    initState.traces = some [] ∧
    ∃ tr, getSupplyChainTrace (createProduct 5 wCreateArgs initState).1
        (createProduct 5 wCreateArgs initState).2 = some tr ∧
      tr.events = [] ∧ tr.created_at = tr.last_updated :=
  ⟨rfl, C6_fresh_trace 5 wCreateArgs initState [] rfl⟩

/-! ### Claim C9 -/

/-- C9 counterexample: on the uninitialized state `get_all_products`
silently returns the empty vector — exactly the normal success value it
returns on an initialized empty store — and `add_supply_chain_event`
returns a generated id as if the append succeeded; neither reports a
not-initialized condition. -/
theorem C9_counterexample_uninitialized_silent :
    getAllProducts noneState = getAllProducts initState ∧
    getAllProducts noneState = [] ∧
    getParticipants noneState = [] ∧
    (addSupplyChainEvent 7 wArgs noneState).1 = generateId 7 ∧
    (addSupplyChainEvent 7 wArgs noneState).1 ≠ "Product not found" := by
  decide

/-- C9 amended: on the uninitialized state only `get_product` and
`verify_product_authenticity` report the not-initialized condition;
`get_all_products` and `get_participants` return an empty collection and
`get_supply_chain_trace` returns absent — indistinguishable from an empty
store — while the three update operations return a generated id as if
successful and write nothing.  No operation crashes: each is a total
function of the state. -/
theorem C9_amended_uninitialized_behaviour (pid : String) (now : Nat)
    (a : AddEventArgs) (ca : CreateProductArgs) (ra : RegisterArgs) :
    getProduct pid noneState = Except.error "Products not initialized" ∧
    verifyProductAuthenticity pid noneState =
      Except.error "Products not initialized" ∧
    getAllProducts noneState = [] ∧
    getParticipants noneState = [] ∧
    getSupplyChainTrace pid noneState = none ∧
    addSupplyChainEvent now a noneState = (generateId now, noneState) ∧
    createProduct now ca noneState = (generateId now, noneState) ∧
    registerParticipant now ra noneState = (generateId now, noneState) := by
  refine ⟨rfl, rfl, rfl, rfl, rfl, ?_, rfl, rfl⟩
  simp [addSupplyChainEvent, noneState]

/-! ### Claim C1 -/

/-- C1: full contract of `verify_product_authenticity` over an initialized
store: an absent product id yields the not-found error (not `false`); an
existing product with a missing trace or zero events yields `Ok false`;
and for a nonempty trace the verdict is `Ok true` exactly when the stored
event sequence, scanned left to right in arrival order, never has a
timestamp strictly below its immediate predecessor's — adjacent
timestamps non-decreasing, equal neighbours accepted — and `Ok false`
(not an error) exactly when some event's timestamp is strictly below its
immediate predecessor's. -/
theorem C1_verify_product_authenticity_contract (st : CanisterState)
    (pid : String) (pm : List (String × Product))
    (tm : List (String × SupplyChainTrace))
    (hp : st.products = some pm) (ht : st.traces = some tm) :
    (mapContains pm pid = false →
      verifyProductAuthenticity pid st = Except.error "Product not found") ∧
    (mapContains pm pid = true → mapGet tm pid = none →
      verifyProductAuthenticity pid st = Except.ok false) ∧
    (∀ tr, mapContains pm pid = true → mapGet tm pid = some tr →
      tr.events = [] → verifyProductAuthenticity pid st = Except.ok false) ∧
    (∀ tr, mapContains pm pid = true → mapGet tm pid = some tr →
      tr.events ≠ [] →
      (verifyProductAuthenticity pid st = Except.ok true ↔
        List.Chain' (fun a b => a ≤ b)
          (tr.events.map SupplyChainEvent.timestamp)) ∧
      (verifyProductAuthenticity pid st = Except.ok false ↔
        ¬ List.Chain' (fun a b => a ≤ b)
          (tr.events.map SupplyChainEvent.timestamp))) := by
  refine ⟨?_, ?_, ?_, ?_⟩
  · intro hmiss
    simp [verifyProductAuthenticity, hp, ht, hmiss]
  · intro hc hnone
    simp [verifyProductAuthenticity, hp, ht, hc, hnone]
  · intro tr hc hsome hemp
    simp [verifyProductAuthenticity, hp, ht, hc, hsome, hemp]
  · intro tr hc hsome hne
    cases hev : tr.events with
    | nil => exact absurd hev hne
    | cons e rest =>
        have hred : verifyProductAuthenticity pid st =
            Except.ok (chronologicalFrom e.timestamp rest) := by
          simp [verifyProductAuthenticity, hp, ht, hc, hsome, hev]
        rw [hred]
        simp only [List.map_cons]
        rw [← chronologicalFrom_eq_chain]
        cases hcc : chronologicalFrom e.timestamp rest <;> simp

/-- A concrete event record with a given timestamp, for witnesses. -/
def wEvent (t : Nat) : SupplyChainEvent :=
  { id := "e", product_id := "p1", event_type := EventType.Production,
    location := "l", timestamp := t, actor := "a", details := "d",
    coordinates := none, temperature := none, humidity := none }

/-- A concrete trace whose stored events carry timestamps
`[100, 100, 150]`. -/
def wTrace : SupplyChainTrace :=
  { product_id := "p1", events := [wEvent 100, wEvent 100, wEvent 150],
    created_at := 50, last_updated := 150 }

/-- A concrete state for exercising the verification contract. -/
def wVerifyState : CanisterState :=
  { products := some [("p1", wProduct)], traces := some [("p1", wTrace)],
    events := some [], participants := some [] }

/-- A concrete trace whose stored events carry timestamps
`[100, 90, 150]` — a regression at the second event. -/
def wTraceBad : SupplyChainTrace :=
  { product_id := "p1", events := [wEvent 100, wEvent 90, wEvent 150],
    created_at := 50, last_updated := 150 }

/-- A concrete state whose single product's stored trace regresses. -/
def wBadVerifyState : CanisterState :=
  { products := some [("p1", wProduct)],
    traces := some [("p1", wTraceBad)],
    events := some [], participants := some [] }

/-- Witness for C1: timestamps `[100, 100, 150]` verify as authentic,
timestamps `[100, 90, 150]` yield `Ok false` (not an error), and an
unknown product id yields the not-found error. -/
theorem C1_witness :
    wVerifyState.products = some [("p1", wProduct)] ∧
    wVerifyState.traces = some [("p1", wTrace)] ∧
    wBadVerifyState.products = some [("p1", wProduct)] ∧
    wBadVerifyState.traces = some [("p1", wTraceBad)] ∧
    verifyProductAuthenticity "p1" wVerifyState = Except.ok true ∧
    verifyProductAuthenticity "p1" wBadVerifyState = Except.ok false ∧
    verifyProductAuthenticity "q" wVerifyState =
      Except.error "Product not found" := by
  have h := C1_verify_product_authenticity_contract wVerifyState "p1"
    [("p1", wProduct)] [("p1", wTrace)] rfl rfl
  have h2 := C1_verify_product_authenticity_contract wVerifyState "q"
    [("p1", wProduct)] [("p1", wTrace)] rfl rfl
  have h3 := C1_verify_product_authenticity_contract wBadVerifyState "p1"
    [("p1", wProduct)] [("p1", wTraceBad)] rfl rfl
  refine ⟨rfl, rfl, rfl, rfl, ?_, ?_, ?_⟩
  · exact (h.2.2.2 wTrace (by decide) rfl (by decide)).1.mpr
      (by simp [wTrace, wEvent, List.chain'_cons])
  · exact (h3.2.2.2 wTraceBad (by decide) rfl (by decide)).2.mpr
      (by norm_num [wTraceBad, wEvent, List.chain'_cons])
  · exact h2.1 (by decide)

/-! ### Claim C10 -/

/-- C10: every identifier `generate_id` produces has the shape of a
decimal number, an underscore, and a decimal number strictly below 10000;
in particular it differs from the failure sentinel `"Product not found"`
(which contains no underscore), so the string returned by a successful
`add_supply_chain_event` — which is `generate_id`'s output, as are the
ids returned by `create_product` and `register_participant` — is always
distinguishable from the failure outcome. -/
theorem C10_generated_ids_distinguishable (now : Nat) (st : CanisterState)
    (a : AddEventArgs) (ca : CreateProductArgs) (ra : RegisterArgs)
    (pm : List (String × Product)) (hp : st.products = some pm)
    (hc : mapContains pm a.product_id = true) :
    (∃ x y, y < 10000 ∧
      generateId now = Nat.repr x ++ "_" ++ Nat.repr y) ∧
    generateId now ≠ "Product not found" ∧
    (addSupplyChainEvent now a st).1 = generateId now ∧
    (createProduct now ca st).1 = generateId now ∧
    (registerParticipant now ra st).1 = generateId now := by
  have hmem : '_' ∈ (generateId now).data := by
    unfold generateId
    rw [String.data_append, String.data_append]
    refine List.mem_append.mpr (Or.inl (List.mem_append.mpr (Or.inr ?_)))
    decide
  refine ⟨⟨getCurrentTimestamp now, now % 10000,
      Nat.mod_lt now (by norm_num), rfl⟩, ?_, ?_, ?_, ?_⟩
  · intro heq
    rw [heq] at hmem
    exact absurd hmem (by decide)
  · simp [addSupplyChainEvent, hp, hc]
  · simp [createProduct]
  · simp [registerParticipant]

/-- Witness for C10 at a concrete clock reading and the concrete state
holding product `"p1"`. -/
theorem C10_witness :
    wNoTraceState.products = some [("p1", wProduct)] ∧
    mapContains [("p1", wProduct)] wArgs.product_id = true ∧
    ((∃ x y, y < 10000 ∧
        generateId 12345678901234 = Nat.repr x ++ "_" ++ Nat.repr y) ∧
     generateId 12345678901234 ≠ "Product not found" ∧
     (addSupplyChainEvent 12345678901234 wArgs wNoTraceState).1 =
       generateId 12345678901234 ∧
     (createProduct 12345678901234 wCreateArgs wNoTraceState).1 =
       generateId 12345678901234 ∧
     (registerParticipant 12345678901234 wRegisterArgs wNoTraceState).1 =
       generateId 12345678901234) :=
  ⟨rfl, by decide,
   C10_generated_ids_distinguishable 12345678901234 wNoTraceState wArgs
     wCreateArgs wRegisterArgs [("p1", wProduct)] rfl (by decide)⟩

/-! ### Claim C5 -/

/-- Run a sequence of `add_supply_chain_event` calls, each targeted at the
product `pid`, threading the state; the first component of each pair is
the clock reading of that call. -/
def runAppends (pid : String) :
    List (Nat × AddEventArgs) → CanisterState → CanisterState
  | [], st => st
  | (t, a) :: rest, st =>
      runAppends pid rest
        (addSupplyChainEvent t { a with product_id := pid } st).2

/-- The timestamp written by the last append of the list, defaulting to
`d` when the list is empty. -/
def lastUpd (d : Nat) : List (Nat × AddEventArgs) → Nat
  | [] => d
  | (t, _) :: rest => lastUpd (getCurrentTimestamp t) rest

theorem lastUpd_eq_getLast :
    ∀ (l : List (Nat × AddEventArgs)) (d : Nat) (h : l ≠ []),
      lastUpd d l = getCurrentTimestamp (l.getLast h).1
  | [x], _, _ => rfl
  | x :: y :: rest, d, _ => by
      have h1 : lastUpd d (x :: y :: rest) =
          lastUpd (getCurrentTimestamp x.1) (y :: rest) := rfl
      rw [h1, lastUpd_eq_getLast (y :: rest) (getCurrentTimestamp x.1)
        (by simp)]
      congr 1

/-- One `add_supply_chain_event` call on a fully initialized state whose
product store contains the target id: the event id is returned, the event
is inserted into the flat events map, and the trace at the target key (if
any) gains the event and the fresh `last_updated`. -/
theorem addEvent_known_product_eq (now : Nat) (a : AddEventArgs)
    (st : CanisterState) (pm : List (String × Product))
    (em : List (String × SupplyChainEvent))
    (tm : List (String × SupplyChainTrace))
    (hp : st.products = some pm) (hc : mapContains pm a.product_id = true)
    (he : st.events = some em) (ht : st.traces = some tm) :
    addSupplyChainEvent now a st =
      (generateId now,
       { st with
         events := some (mapInsert em (generateId now) (mkEvent now a)),
         traces := some (mapModify tm a.product_id (fun tr0 =>
           { tr0 with events := tr0.events ++ [mkEvent now a],
                      last_updated := getCurrentTimestamp now })) }) := by
  obtain ⟨prods, trs, evs, parts⟩ := st
  simp only at hp he ht
  subst hp he ht
  simp [addSupplyChainEvent, hc]

theorem runAppends_trace (pid : String) (l : List (Nat × AddEventArgs)) :
    ∀ (st : CanisterState) (pm : List (String × Product))
      (em : List (String × SupplyChainEvent))
      (tm : List (String × SupplyChainTrace)) (tr : SupplyChainTrace),
    st.products = some pm → mapContains pm pid = true →
    st.events = some em → st.traces = some tm → mapGet tm pid = some tr →
    ∃ em' tm',
      (runAppends pid l st).products = some pm ∧
      (runAppends pid l st).events = some em' ∧
      (runAppends pid l st).traces = some tm' ∧
      mapGet tm' pid = some
        { product_id := tr.product_id,
          events := tr.events ++ l.map (fun x =>
            mkEvent x.1 { x.2 with product_id := pid }),
          created_at := tr.created_at,
          last_updated := lastUpd tr.last_updated l } := by
  induction l with
  | nil =>
      intro st pm em tm tr hp hc he ht htr
      refine ⟨em, tm, hp, he, ht, ?_⟩
      simpa using htr
  | cons x rest ih =>
      intro st pm em tm tr hp hc he ht htr
      obtain ⟨t, a⟩ := x
      have hstep := addEvent_known_product_eq t { a with product_id := pid }
        st pm em tm hp hc he ht
      have hrun2 : runAppends pid ((t, a) :: rest) st =
          runAppends pid rest
            { st with
              events := some (mapInsert em (generateId t)
                (mkEvent t { a with product_id := pid })),
              traces := some (mapModify tm pid (fun tr0 =>
                { tr0 with
                  events := tr0.events ++
                    [mkEvent t { a with product_id := pid }],
                  last_updated := getCurrentTimestamp t })) } := by
        show runAppends pid rest
            (addSupplyChainEvent t { a with product_id := pid } st).2 = _
        rw [hstep]
      obtain ⟨em', tm', h1, h2, h3, h4⟩ := ih
        { st with
          events := some (mapInsert em (generateId t)
            (mkEvent t { a with product_id := pid })),
          traces := some (mapModify tm pid (fun tr0 =>
            { tr0 with
              events := tr0.events ++
                [mkEvent t { a with product_id := pid }],
              last_updated := getCurrentTimestamp t })) }
        pm (mapInsert em (generateId t)
          (mkEvent t { a with product_id := pid }))
        (mapModify tm pid (fun tr0 =>
          { tr0 with
            events := tr0.events ++
              [mkEvent t { a with product_id := pid }],
            last_updated := getCurrentTimestamp t }))
        { tr with
          events := tr.events ++ [mkEvent t { a with product_id := pid }],
          last_updated := getCurrentTimestamp t }
        hp hc rfl rfl (by rw [mapGet_modify]; simp [htr])
      refine ⟨em', tm', ?_, ?_, ?_, ?_⟩
      · rw [hrun2]; exact h1
      · rw [hrun2]; exact h2
      · rw [hrun2]; exact h3
      · simpa [List.append_assoc] using h4

/-- `create_product` on a state whose products and traces maps are
initialized: the generated id is returned, both maps gain an entry under
it, and the events and participants maps are untouched. -/
theorem createProduct_state_eq (now : Nat) (a : CreateProductArgs)
    (st : CanisterState) (pm : List (String × Product))
    (tm : List (String × SupplyChainTrace))
    (hp : st.products = some pm) (ht : st.traces = some tm) :
    createProduct now a st =
      (generateId now,
       { st with
         products := some (mapInsert pm (generateId now)
           { id := generateId now, name := a.name,
             description := a.description, manufacturer := a.manufacturer,
             batch_number := a.batch_number,
             production_date := getCurrentTimestamp now,
             ingredients := a.ingredients,
             certifications := a.certifications }),
         traces := some (mapInsert tm (generateId now)
           { product_id := generateId now, events := [],
             created_at := getCurrentTimestamp now,
             last_updated := getCurrentTimestamp now }) }) := by
  obtain ⟨prods, trs, evs, parts⟩ := st
  simp only at hp ht
  subst hp ht
  simp [createProduct]

/-- C5: from any initialized state, creating a product and then appending
the (nonempty) sequence of events `E1..EN` to it — with no other
operations on it — yields a trace whose `events` is exactly `[E1..EN]` in
arrival order (not re-sorted by timestamp) and whose `last_updated` is
the clock reading of the Nth append. -/
theorem C5_trace_arrival_order (now0 : Nat) (ca : CreateProductArgs)
    (st : CanisterState) (pm : List (String × Product))
    (em : List (String × SupplyChainEvent))
    (tm : List (String × SupplyChainTrace))
    (hp : st.products = some pm) (he : st.events = some em)
    (ht : st.traces = some tm)
    (appends : List (Nat × AddEventArgs)) (hne : appends ≠ []) :
    getSupplyChainTrace (createProduct now0 ca st).1
        (runAppends (createProduct now0 ca st).1 appends
          (createProduct now0 ca st).2) =
      some { product_id := (createProduct now0 ca st).1,
             events := appends.map (fun x =>
               mkEvent x.1 { x.2 with
                 product_id := (createProduct now0 ca st).1 }),
             created_at := getCurrentTimestamp now0,
             last_updated := getCurrentTimestamp (appends.getLast hne).1 } := by
  simp only [createProduct_state_eq now0 ca st pm tm hp ht]
  obtain ⟨em', tm', h1, h2, h3, h4⟩ :=
    runAppends_trace (generateId now0) appends
      { st with
        products := some (mapInsert pm (generateId now0)
          { id := generateId now0, name := ca.name,
            description := ca.description, manufacturer := ca.manufacturer,
            batch_number := ca.batch_number,
            production_date := getCurrentTimestamp now0,
            ingredients := ca.ingredients,
            certifications := ca.certifications }),
        traces := some (mapInsert tm (generateId now0)
          { product_id := generateId now0, events := [],
            created_at := getCurrentTimestamp now0,
            last_updated := getCurrentTimestamp now0 }) }
      (mapInsert pm (generateId now0)
        { id := generateId now0, name := ca.name,
          description := ca.description, manufacturer := ca.manufacturer,
          batch_number := ca.batch_number,
          production_date := getCurrentTimestamp now0,
          ingredients := ca.ingredients,
          certifications := ca.certifications })
      em
      (mapInsert tm (generateId now0)
        { product_id := generateId now0, events := [],
          created_at := getCurrentTimestamp now0,
          last_updated := getCurrentTimestamp now0 })
      { product_id := generateId now0, events := [],
        created_at := getCurrentTimestamp now0,
        last_updated := getCurrentTimestamp now0 }
      rfl (by rw [mapContains_insert]; simp) he rfl
      (by rw [mapGet_insert]; simp)
  simp only [getSupplyChainTrace, h3]
  rw [h4, lastUpd_eq_getLast appends _ hne]
  rfl

/-- Witness for C5 at the freshly initialized state: create at clock
50000000, append at clocks 100000000 and 150000000; the trace holds both
events in arrival order with `last_updated = 150`. -/
theorem C5_witness :
    initState.products = some [] ∧
    initState.events = some [] ∧
    initState.traces = some [] ∧
    ([(100000000, wArgs), (150000000, wArgs)] :
        List (Nat × AddEventArgs)) ≠ [] ∧
    getSupplyChainTrace (createProduct 50000000 wCreateArgs initState).1
        (runAppends (createProduct 50000000 wCreateArgs initState).1
          [(100000000, wArgs), (150000000, wArgs)]
          (createProduct 50000000 wCreateArgs initState).2) =
      some { product_id := (createProduct 50000000 wCreateArgs initState).1,
             events := [(100000000, wArgs), (150000000, wArgs)].map (fun x =>
               mkEvent x.1 { x.2 with
                 product_id :=
                   (createProduct 50000000 wCreateArgs initState).1 }),
             created_at := getCurrentTimestamp 50000000,
             last_updated := getCurrentTimestamp
               (([(100000000, wArgs), (150000000, wArgs)] :
                   List (Nat × AddEventArgs)).getLast (by decide)).1 } :=
  ⟨rfl, rfl, rfl, by decide,
   C5_trace_arrival_order 50000000 wCreateArgs initState [] [] [] rfl rfl
     rfl [(100000000, wArgs), (150000000, wArgs)] (by decide)⟩

/-! ### Reachable states: the mutating operations as a step relation -/

/-- The three mutating externally callable operations. -/
inductive Op where
  | createP (a : CreateProductArgs)
  | addEvent (a : AddEventArgs)
  | register (a : RegisterArgs)

/-- The state transformation of one operation at clock reading `now`
(the query operations do not mutate the state). -/
def applyOp (now : Nat) (o : Op) (st : CanisterState) : CanisterState :=
  match o with
  | Op.createP a => (createProduct now a st).2
  | Op.addEvent a => (addSupplyChainEvent now a st).2
  | Op.register a => (registerParticipant now a st).2

/-- Run a list of operations, each tagged with its clock reading. -/
def runOps : List (Nat × Op) → CanisterState → CanisterState
  | [], st => st
  | (t, o) :: rest, st => runOps rest (applyOp t o st)

/-- The clock readings of a run are at least `t` and non-decreasing. -/
def TimesMono : Nat → List (Nat × Op) → Prop
  | _, [] => True
  | t, (t', _) :: rest => t ≤ t' ∧ TimesMono t' rest

/-- The clock reading of the last operation (default `t`). -/
def endTime (t : Nat) : List (Nat × Op) → Nat
  | [] => t
  | (t', _) :: rest => endTime t' rest

/-- Every trace in the state satisfies
`created_at ≤ last_updated ≤ bound` (`bound` in converted-timestamp
units). -/
def TracesOk (bound : Nat) (st : CanisterState) : Prop :=
  ∀ tm k tr, st.traces = some tm → mapGet tm k = some tr →
    tr.created_at ≤ tr.last_updated ∧ tr.last_updated ≤ bound

theorem TracesOk.mono {b b' : Nat} {st : CanisterState} (h : TracesOk b st)
    (hb : b ≤ b') : TracesOk b' st := by
  intro tm k tr htm htr
  obtain ⟨h1, h2⟩ := h tm k tr htm htr
  exact ⟨h1, le_trans h2 hb⟩

theorem applyOp_tracesOk (b now : Nat) (o : Op) (st : CanisterState)
    (hb : b ≤ getCurrentTimestamp now) (h : TracesOk b st) :
    TracesOk (getCurrentTimestamp now) (applyOp now o st) := by
  obtain ⟨prods, trs, evs, parts⟩ := st
  cases o with
  | createP a =>
      intro tm k tr htm htr
      cases trs with
      | none =>
          cases prods <;> simp [applyOp, createProduct] at htm
      | some tmi =>
          have htm' : tm = mapInsert tmi (generateId now)
              { product_id := generateId now, events := [],
                created_at := getCurrentTimestamp now,
                last_updated := getCurrentTimestamp now } := by
            cases prods <;>
              simpa [applyOp, createProduct] using htm.symm
          subst htm'
          rw [mapGet_insert] at htr
          by_cases hk : generateId now = k
          · rw [if_pos hk] at htr
            obtain rfl : tr = _ := (Option.some_injective _ htr).symm
            exact ⟨le_refl _, le_refl _⟩
          · rw [if_neg hk] at htr
            obtain ⟨h1, h2⟩ := h tmi k tr rfl htr
            exact ⟨h1, le_trans h2 hb⟩
  | addEvent a =>
      cases prods with
      | none =>
          intro tm k tr htm htr
          cases trs with
          | none => cases evs <;> simp [applyOp, addSupplyChainEvent] at htm
          | some tmi =>
              have htm' : tm = mapModify tmi a.product_id (fun tr0 =>
                  { tr0 with events := tr0.events ++ [mkEvent now a],
                             last_updated := getCurrentTimestamp now }) := by
                cases evs <;>
                  simpa [applyOp, addSupplyChainEvent] using htm.symm
              subst htm'
              rw [mapGet_modify] at htr
              by_cases hk : a.product_id = k
              · rw [if_pos hk] at htr
                cases htr0 : mapGet tmi k with
                | none => rw [htr0] at htr; simp at htr
                | some tr0 =>
                    rw [htr0] at htr
                    obtain rfl : tr = _ := (Option.some_injective _ htr).symm
                    obtain ⟨h1, h2⟩ := h tmi k tr0 rfl htr0
                    exact ⟨le_trans (le_trans h1 h2) hb, le_refl _⟩
              · rw [if_neg hk] at htr
                obtain ⟨h1, h2⟩ := h tmi k tr rfl htr
                exact ⟨h1, le_trans h2 hb⟩
      | some pmi =>
          by_cases hc : mapContains pmi a.product_id = true
          · intro tm k tr htm htr
            cases trs with
            | none =>
                cases evs <;>
                  simp [applyOp, addSupplyChainEvent, hc] at htm
            | some tmi =>
                have htm' : tm = mapModify tmi a.product_id (fun tr0 =>
                    { tr0 with events := tr0.events ++ [mkEvent now a],
                               last_updated := getCurrentTimestamp now }) := by
                  cases evs <;>
                    simpa [applyOp, addSupplyChainEvent, hc] using htm.symm
                subst htm'
                rw [mapGet_modify] at htr
                by_cases hk : a.product_id = k
                · rw [if_pos hk] at htr
                  cases htr0 : mapGet tmi k with
                  | none => rw [htr0] at htr; simp at htr
                  | some tr0 =>
                      rw [htr0] at htr
                      obtain rfl : tr = _ := (Option.some_injective _ htr).symm
                      obtain ⟨h1, h2⟩ := h tmi k tr0 rfl htr0
                      exact ⟨le_trans (le_trans h1 h2) hb, le_refl _⟩
                · rw [if_neg hk] at htr
                  obtain ⟨h1, h2⟩ := h tmi k tr rfl htr
                  exact ⟨h1, le_trans h2 hb⟩
          · have hc' : mapContains pmi a.product_id = false := by
              simpa using hc
            have hres : applyOp now (Op.addEvent a)
                ⟨some pmi, trs, evs, parts⟩ = ⟨some pmi, trs, evs, parts⟩ := by
              simp [applyOp, addSupplyChainEvent, hc']
            rw [hres]
            exact h.mono hb
  | register a =>
      have hres : (applyOp now (Op.register a)
          ⟨prods, trs, evs, parts⟩).traces = trs := by
        cases parts <;> simp [applyOp, registerParticipant]
      intro tm k tr htm htr
      rw [hres] at htm
      obtain ⟨h1, h2⟩ := h tm k tr htm htr
      exact ⟨h1, le_trans h2 hb⟩

theorem timesMono_append_last :
    ∀ (l : List (Nat × Op)) (x : Nat × Op) (t : Nat),
      TimesMono t (l ++ [x]) → TimesMono t l ∧ endTime t l ≤ x.1
  | [], _, _, h => ⟨trivial, h.1⟩
  | (ty, _) :: rest, x, _, h =>
      ⟨⟨h.1, (timesMono_append_last rest x ty h.2).1⟩,
       (timesMono_append_last rest x ty h.2).2⟩

theorem runOps_tracesOk :
    ∀ (l : List (Nat × Op)) (t : Nat) (st : CanisterState),
      TimesMono t l → TracesOk (getCurrentTimestamp t) st →
      TracesOk (getCurrentTimestamp (endTime t l)) (runOps l st)
  | [], _, _, _, h => h
  | (t', o) :: rest, t, st, hm, h => by
      have hb : getCurrentTimestamp t ≤ getCurrentTimestamp t' :=
        Nat.div_le_div_right hm.1
      exact runOps_tracesOk rest t' _ hm.2
        (applyOp_tracesOk (getCurrentTimestamp t) t' o st hb h)

theorem applyOp_lastUpdated_mono (b now : Nat) (o : Op) (st : CanisterState)
    (hb : b ≤ getCurrentTimestamp now) (h : TracesOk b st) :
    ∀ tm tm' k tr tr', st.traces = some tm →
      (applyOp now o st).traces = some tm' →
      mapGet tm k = some tr → mapGet tm' k = some tr' →
      tr.last_updated ≤ tr'.last_updated := by
  obtain ⟨prods, trs, evs, parts⟩ := st
  intro tm tm' k tr tr' htm htm' htr htr'
  simp only at htm
  subst htm
  cases o with
  | createP a =>
      have htm2 : tm' = mapInsert tm (generateId now)
          { product_id := generateId now, events := [],
            created_at := getCurrentTimestamp now,
            last_updated := getCurrentTimestamp now } := by
        cases prods <;> simpa [applyOp, createProduct] using htm'.symm
      subst htm2
      rw [mapGet_insert] at htr'
      by_cases hk : generateId now = k
      · rw [if_pos hk] at htr'
        obtain rfl : tr' = _ := (Option.some_injective _ htr').symm
        exact le_trans (h tm k tr rfl htr).2 hb
      · rw [if_neg hk] at htr'
        rw [htr] at htr'
        obtain rfl : tr = tr' := Option.some_injective _ htr'
        exact le_refl _
  | addEvent a =>
      have hsplit :
          tm' = tm ∨
          tm' = mapModify tm a.product_id (fun tr0 =>
            { tr0 with events := tr0.events ++ [mkEvent now a],
                       last_updated := getCurrentTimestamp now }) := by
        cases prods with
        | none =>
            refine Or.inr ?_
            cases evs <;> simpa [applyOp, addSupplyChainEvent] using htm'.symm
        | some pmi =>
            by_cases hc : mapContains pmi a.product_id = true
            · refine Or.inr ?_
              cases evs <;>
                simpa [applyOp, addSupplyChainEvent, hc] using htm'.symm
            · refine Or.inl ?_
              have hc' : mapContains pmi a.product_id = false := by
                simpa using hc
              simpa [applyOp, addSupplyChainEvent, hc'] using htm'.symm
      cases hsplit with
      | inl heq =>
          subst heq
          rw [htr] at htr'
          obtain rfl : tr = tr' := Option.some_injective _ htr'
          exact le_refl _
      | inr heq =>
          subst heq
          rw [mapGet_modify] at htr'
          by_cases hk : a.product_id = k
          · rw [if_pos hk, htr] at htr'
            obtain rfl : tr' = _ := (Option.some_injective _ htr').symm
            exact le_trans (h tm k tr rfl htr).2 hb
          · rw [if_neg hk, htr] at htr'
            obtain rfl : tr = tr' := Option.some_injective _ htr'
            exact le_refl _
  | register a =>
      have hres : (applyOp now (Op.register a)
          ⟨prods, some tm, evs, parts⟩).traces = some tm := by
        cases parts <;> simp [applyOp, registerParticipant]
      rw [hres] at htm'
      obtain rfl : tm = tm' := Option.some_injective _ htm'
      rw [htr] at htr'
      obtain rfl : tr = tr' := Option.some_injective _ htr'
      exact le_refl _

/-- Every retrievable trace has `created_at ≤ last_updated`. -/
def CreatedLeUpdated (st : CanisterState) : Prop :=
  ∀ tm k tr, st.traces = some tm → mapGet tm k = some tr →
    tr.created_at ≤ tr.last_updated

/-- Between states `st` and `st'`, no trace's `last_updated` decreases. -/
def NoLastUpdatedDecrease (st st' : CanisterState) : Prop :=
  ∀ tm tm' k tr tr', st.traces = some tm → st'.traces = some tm' →
    mapGet tm k = some tr → mapGet tm' k = some tr' →
    tr.last_updated ≤ tr'.last_updated

/-! ### Claim C7 -/

/-- C7: in every state reached from the initialized store through a
sequence of operations with non-decreasing clock readings, every trace
has `created_at ≤ last_updated`; and one more operation at a clock
reading no earlier than every previous one never decreases any trace's
`last_updated`. -/
theorem C7_last_updated_invariants (ops : List (Nat × Op)) (now : Nat)
    (o : Op) (hmono : TimesMono 0 (ops ++ [(now, o)])) :
    CreatedLeUpdated (runOps ops initState) ∧
    NoLastUpdatedDecrease (runOps ops initState)
      (applyOp now o (runOps ops initState)) := by
  obtain ⟨hm, hle⟩ := timesMono_append_last ops (now, o) 0 hmono
  have h0 : TracesOk (getCurrentTimestamp 0) initState := by
    intro tm k tr htm htr
    simp only [initState] at htm
    obtain rfl : tm = [] := (Option.some_injective _ htm).symm
    simp [mapGet] at htr
  have hrun := runOps_tracesOk ops 0 initState hm h0
  have hb : getCurrentTimestamp (endTime 0 ops) ≤ getCurrentTimestamp now :=
    Nat.div_le_div_right hle
  refine ⟨?_, ?_⟩
  · intro tm k tr htm htr
    exact (hrun tm k tr htm htr).1
  · exact fun tm tm' k tr tr' htm htm' htr htr' =>
      applyOp_lastUpdated_mono _ now o _ hb hrun tm tm' k tr tr' htm htm'
        htr htr'

/-- Witness for C7: one creation at clock 0 followed by a registration at
clock 1. -/
theorem C7_witness :
    TimesMono 0 ([(0, Op.createP wCreateArgs)] ++
      [(1, Op.register wRegisterArgs)]) ∧
    CreatedLeUpdated (runOps [(0, Op.createP wCreateArgs)] initState) ∧
    NoLastUpdatedDecrease (runOps [(0, Op.createP wCreateArgs)] initState)
      (applyOp 1 (Op.register wRegisterArgs)
        (runOps [(0, Op.createP wCreateArgs)] initState)) := by
  have hm : TimesMono 0 ([(0, Op.createP wCreateArgs)] ++
      [(1, Op.register wRegisterArgs)]) :=
    ⟨Nat.le_refl 0, Nat.zero_le 1, trivial⟩
  have h := C7_last_updated_invariants [(0, Op.createP wCreateArgs)] 1
    (Op.register wRegisterArgs) hm
  exact ⟨hm, h.1, h.2⟩

/-! ### Claim C8 -/

/-- The products map and the traces map are both initialized, have the
same key set, and every trace is stored under its own `product_id`. -/
def KeyedTraces (st : CanisterState) : Prop :=
  ∃ pm tm, st.products = some pm ∧ st.traces = some tm ∧
    (∀ k, mapContains pm k = mapContains tm k) ∧
    (∀ k tr, mapGet tm k = some tr → tr.product_id = k)

theorem applyOp_keyedTraces (now : Nat) (o : Op) (st : CanisterState)
    (h : KeyedTraces st) : KeyedTraces (applyOp now o st) := by
  obtain ⟨pm, tm, hp, ht, hcont, hkey⟩ := h
  obtain ⟨prods, trs, evs, parts⟩ := st
  simp only at hp ht
  subst hp ht
  cases o with
  | createP a =>
      refine ⟨mapInsert pm (generateId now)
          { id := generateId now, name := a.name,
            description := a.description, manufacturer := a.manufacturer,
            batch_number := a.batch_number,
            production_date := getCurrentTimestamp now,
            ingredients := a.ingredients,
            certifications := a.certifications },
        mapInsert tm (generateId now)
          { product_id := generateId now, events := [],
            created_at := getCurrentTimestamp now,
            last_updated := getCurrentTimestamp now },
        ?_, ?_, ?_, ?_⟩
      · simp [applyOp, createProduct]
      · simp [applyOp, createProduct]
      · intro k
        rw [mapContains_insert, mapContains_insert]
        by_cases hk : generateId now = k
        · simp [hk]
        · simp [hk, hcont k]
      · intro k tr htr
        rw [mapGet_insert] at htr
        by_cases hk : generateId now = k
        · rw [if_pos hk] at htr
          obtain rfl : tr = _ := (Option.some_injective _ htr).symm
          exact hk
        · rw [if_neg hk] at htr
          exact hkey k tr htr
  | addEvent a =>
      by_cases hc : mapContains pm a.product_id = true
      · refine ⟨pm, mapModify tm a.product_id (fun tr0 =>
            { tr0 with events := tr0.events ++ [mkEvent now a],
                       last_updated := getCurrentTimestamp now }),
          ?_, ?_, ?_, ?_⟩
        · cases evs <;> simp [applyOp, addSupplyChainEvent, hc]
        · cases evs <;> simp [applyOp, addSupplyChainEvent, hc]
        · intro k
          rw [mapContains_modify]
          exact hcont k
        · intro k tr htr
          rw [mapGet_modify] at htr
          by_cases hk : a.product_id = k
          · rw [if_pos hk] at htr
            cases htr0 : mapGet tm k with
            | none => rw [htr0] at htr; simp at htr
            | some tr0 =>
                rw [htr0] at htr
                obtain rfl : tr = _ := (Option.some_injective _ htr).symm
                exact hkey k tr0 htr0
          · rw [if_neg hk] at htr
            exact hkey k tr htr
      · have hc' : mapContains pm a.product_id = false := by simpa using hc
        have hres : applyOp now (Op.addEvent a)
            ⟨some pm, some tm, evs, parts⟩ =
            ⟨some pm, some tm, evs, parts⟩ := by
          simp [applyOp, addSupplyChainEvent, hc']
        rw [hres]
        exact ⟨pm, tm, rfl, rfl, hcont, hkey⟩
  | register a =>
      have hp' : (applyOp now (Op.register a)
          ⟨some pm, some tm, evs, parts⟩).products = some pm := by
        cases parts <;> simp [applyOp, registerParticipant]
      have ht' : (applyOp now (Op.register a)
          ⟨some pm, some tm, evs, parts⟩).traces = some tm := by
        cases parts <;> simp [applyOp, registerParticipant]
      exact ⟨pm, tm, hp', ht', hcont, hkey⟩

theorem runOps_keyedTraces :
    ∀ (l : List (Nat × Op)) (st : CanisterState),
      KeyedTraces st → KeyedTraces (runOps l st)
  | [], _, h => h
  | (t, o) :: rest, st, h =>
      runOps_keyedTraces rest (applyOp t o st) (applyOp_keyedTraces t o st h)

/-- C8: in every state reached from the initialized store, the products
map and the traces map are both present with equal key sets, and every
trace is keyed by its own `product_id` (so that `product_id` names an
existing product and every product has a trace, created with it by
`create_product`); the alignment is preserved by every operation. -/
theorem C8_products_traces_key_alignment (ops : List (Nat × Op)) :
    KeyedTraces (runOps ops initState) := by
  refine runOps_keyedTraces ops initState ⟨[], [], rfl, rfl, ?_, ?_⟩
  · intro k
    rfl
  · intro k tr htr
    simp [mapGet] at htr

end RouteSync
